import Mathlib

/-!
Shallow embedding of `src/tools/document.py` (document upload / processing /
search tools keyed by a normalized phone-number identifier), together with
theorems settling the specification's claims about it.

Conventions of the embedding:
* Python `str` values are modelled as `List Char` (a Python string is a
  sequence of Unicode code points; all inputs exercised here are code points,
  never surrogates).
* Python `bytes` values are modelled as `List Nat` with every element < 256.
* Machine-level glue that is out of the specified core (base64 transport
  decoding, the FastMCP wiring, the cosmetic watermark decorator) is not
  modelled; tool bodies are modelled from the point where their typed
  arguments are available, and formatted report strings are modelled as
  structured values carrying exactly the data the source interpolates into
  the report template.
* Calls into third-party libraries (`python-docx`, `PyPDF2`, `olefile`) are
  external code, not code of this repository; their outcomes enter the
  embedding as explicit parameters.
-/

/-- Coercion helper: the character list of a Lean string literal. -/
def chars (s : String) : List Char := s.toList

/-- Whitespace test matching CPython's `str.strip()` / `str.split()` default
whitespace set, restricted to the ASCII range (all texts exercised by the
claims are ASCII). -/
def pyIsSpace (c : Char) : Bool :=
  c = ' ' || c = '\t' || c = '\n' || c = '\r' || c = '\x0b' || c = '\x0c'

/-- Python `str.strip()` with no arguments: drop leading and trailing
whitespace. -/
def pyStrip (s : List Char) : List Char :=
  ((s.dropWhile pyIsSpace).reverse.dropWhile pyIsSpace).reverse

/-- Python `str.strip(chars)`: drop leading and trailing characters drawn
from the given set. -/
def pyStripChars (set s : List Char) : List Char :=
  ((s.dropWhile (set.contains ·)).reverse.dropWhile (set.contains ·)).reverse

/-- Lower-case one character, matching CPython `str.lower()` on the ASCII
range (all texts exercised by the claims are ASCII). -/
def pyLowerChar (c : Char) : Char :=
  if 'A' ≤ c && c ≤ 'Z' then Char.ofNat (c.toNat + 32) else c

/-- Python `str.lower()` (ASCII range). -/
def pyLower (s : List Char) : List Char := s.map pyLowerChar

/-- Fuelled worker for `findFrom`; one unit of fuel per candidate start
position, and `s.length + 1 - start` positions remain to be tried. -/
def findFromGo (s sub : List Char) : Nat → Nat → Option Nat
  | 0, _ => none
  | fuel + 1, start =>
    if start + sub.length ≤ s.length then
      if (s.drop start).take sub.length = sub then some start
      else findFromGo s sub fuel (start + 1)
    else none

/-- Python `str.find(sub, start)`: the least index `i ≥ start` with
`s[i : i + len sub] = sub` (which for the empty needle means any
`start ≤ i ≤ len s`), `none` when there is none. -/
def findFrom (s sub : List Char) (start : Nat) : Option Nat :=
  findFromGo s sub (s.length + 1 - start) start

/-- Python `sub in s`: substring containment. -/
def containsSub (s sub : List Char) : Bool := (findFrom s sub 0).isSome

/-- Fuelled worker for `pySplitOn`.  One unit of fuel is consumed per
separator occurrence; every call supplies fuel `s.length + 1`, which is
enough because the separators used by the source are nonempty. -/
def pySplitOnGo (sep : List Char) : Nat → List Char → List (List Char)
  | 0, s => [s]
  | fuel + 1, s =>
    match findFrom s sep 0 with
    | none => [s]
    | some i => s.take i :: pySplitOnGo sep fuel (s.drop (i + sep.length))

/-- Python `str.split(sep)` with an explicit nonempty separator. -/
def pySplitOn (s sep : List Char) : List (List Char) :=
  pySplitOnGo sep (s.length + 1) s

/-- Fuelled worker for `pyReplace`. -/
def pyReplaceGo (old new : List Char) : Nat → List Char → List Char
  | 0, s => s
  | fuel + 1, s =>
    match findFrom s old 0 with
    | none => s
    | some i => s.take i ++ new ++ pyReplaceGo old new fuel (s.drop (i + old.length))

/-- Python `str.replace(old, new)` with a nonempty `old`. -/
def pyReplace (s old new : List Char) : List Char :=
  pyReplaceGo old new (s.length + 1) s

/-- Worker for `pySplitWs`: accumulate the current word (reversed). -/
def pySplitWsGo : List Char → List Char → List (List Char)
  | [], acc => if acc.isEmpty then [] else [acc.reverse]
  | c :: cs, acc =>
    if pyIsSpace c then
      if acc.isEmpty then pySplitWsGo cs [] else acc.reverse :: pySplitWsGo cs []
    else pySplitWsGo cs (c :: acc)

/-- Python `str.split()` with no arguments: split on whitespace runs,
dropping empty pieces. -/
def pySplitWs (s : List Char) : List (List Char) := pySplitWsGo s []

/-- Python `s.startswith(p)`. -/
def pyStartsWith (s p : List Char) : Bool := p.isPrefixOf s

/-- Sanity checks for the string helpers (concrete evaluations). -/
example : pyStrip (chars ("  ab c\n")) = chars ("ab c") := by decide
example : pyLower (chars ("Foo BAR")) = chars ("foo bar") := by decide
example : findFrom (chars ("abcabc")) (chars ("bc")) 0 = some 1 := by decide
example : findFrom (chars ("abcabc")) (chars ("bc")) 2 = some 4 := by decide
example : findFrom (chars ("abc")) [] 3 = some 3 := by decide
example : findFrom (chars ("abc")) [] 4 = none := by decide
example : pySplitOn (chars ("a\n\nb\n\n")) (chars ("\n\n")) =
    [chars ("a"), chars ("b"), []] := by decide
example : pySplitWs (chars (" a  bc ")) = [chars ("a"), chars ("bc")] := by decide
example : pyReplace (chars ("a-b-c")) (chars ("-")) [] = chars ("abc") := by decide

/-- Continuation-byte test for UTF-8: `0x80 ≤ b ≤ 0xBF`. -/
def contB (b : Nat) : Bool := 0x80 ≤ b && b ≤ 0xBF

/-- Admissible second byte of a three-byte UTF-8 sequence headed by `b0`
(the `0xE0` and `0xED` rows exclude overlong encodings and surrogates,
exactly as CPython's strict UTF-8 codec does). -/
def utf8Cont3 (b0 b1 : Nat) : Bool :=
  if b0 = 0xE0 then 0xA0 ≤ b1 && b1 ≤ 0xBF
  else if b0 = 0xED then 0x80 ≤ b1 && b1 ≤ 0x9F
  else contB b1

/-- Admissible second byte of a four-byte UTF-8 sequence headed by `b0`
(the `0xF0` and `0xF4` rows exclude overlong encodings and code points
above `0x10FFFF`). -/
def utf8Cont4 (b0 b1 : Nat) : Bool :=
  if b0 = 0xF0 then 0x90 ≤ b1 && b1 ≤ 0xBF
  else if b0 = 0xF4 then 0x80 ≤ b1 && b1 ≤ 0x8F
  else contB b1

/-- Decode one UTF-8 sequence from the front of a byte list, following
CPython's strict UTF-8 codec: an ASCII byte, or a 2-, 3- or 4-byte sequence
whose lead and continuation bytes pass the range checks that exclude
invalid start bytes, truncated sequences, overlong encodings, surrogates
and code points above `0x10FFFF`; `none` exactly when CPython raises
`UnicodeDecodeError` at this position. -/
def utf8Step : List Nat → Option (Char × List Nat)
  | [] => none
  | b0 :: rest =>
    if b0 ≤ 0x7F then some (Char.ofNat b0, rest)
    else if 0xC2 ≤ b0 ∧ b0 ≤ 0xDF then
      match rest with
      | b1 :: rest2 =>
        if contB b1 then some (Char.ofNat ((b0 - 0xC0) * 64 + (b1 - 0x80)), rest2) else none
      | [] => none
    else if 0xE0 ≤ b0 ∧ b0 ≤ 0xEF then
      match rest with
      | b1 :: b2 :: rest3 =>
        if utf8Cont3 b0 b1 ∧ contB b2 then
          some (Char.ofNat ((b0 - 0xE0) * 4096 + (b1 - 0x80) * 64 + (b2 - 0x80)), rest3)
        else none
      | _ => none
    else if 0xF0 ≤ b0 ∧ b0 ≤ 0xF4 then
      match rest with
      | b1 :: b2 :: b3 :: rest4 =>
        if utf8Cont4 b0 b1 ∧ contB b2 ∧ contB b3 then
          some (Char.ofNat ((b0 - 0xF0) * 262144 + (b1 - 0x80) * 4096 +
            (b2 - 0x80) * 64 + (b3 - 0x80)), rest4)
        else none
      | _ => none
    else none

/-- Fuelled decoding loop: one unit of fuel per decoded character, and each
character consumes at least one byte, so fuel `bs.length` always suffices
(`utf8DecodeGo_fuel` below shows the result is fuel-independent beyond
that). -/
def utf8DecodeGo : Nat → List Nat → Option (List Char)
  | _, [] => some []
  | 0, _ :: _ => none
  | fuel + 1, b0 :: rest =>
    match utf8Step (b0 :: rest) with
    | none => none
    | some (c, rest2) => (utf8DecodeGo fuel rest2).map (c :: ·)

/-- Strict UTF-8 decoding of a byte list, modelling CPython
`bytes.decode("utf-8")`: `none` exactly when CPython raises
`UnicodeDecodeError`. -/
def utf8Decode (bs : List Nat) : Option (List Char) :=
  utf8DecodeGo bs.length bs

/-- UTF-8 encoding of one code point. -/
def utf8EncodeChar (c : Char) : List Nat :=
  let n := c.toNat
  if n ≤ 0x7F then [n]
  else if n ≤ 0x7FF then [0xC0 + n / 64, 0x80 + n % 64]
  else if n ≤ 0xFFFF then [0xE0 + n / 4096, 0x80 + n / 64 % 64, 0x80 + n % 64]
  else [0xF0 + n / 262144, 0x80 + n / 4096 % 64, 0x80 + n / 64 % 64, 0x80 + n % 64]

/-- UTF-8 encoding of a code-point list. -/
def utf8Encode : List Char → List Nat
  | [] => []
  | c :: cs => utf8EncodeChar c ++ utf8Encode cs

/-- Latin-1 decoding, modelling `bytes.decode("latin-1")`: every byte maps
to the code point of the same value, so decoding never fails. -/
def latin1Decode (bs : List Nat) : Option (List Char) :=
  some (bs.map Char.ofNat)

/-- Code point assigned by Windows-1252 to the bytes `0x80`–`0x9F`;
`none` for the five bytes that codec leaves undefined. -/
def cp1252High (b : Nat) : Option Nat :=
  if b = 0x80 then some 0x20AC else if b = 0x82 then some 0x201A
  else if b = 0x83 then some 0x0192 else if b = 0x84 then some 0x201E
  else if b = 0x85 then some 0x2026 else if b = 0x86 then some 0x2020
  else if b = 0x87 then some 0x2021 else if b = 0x88 then some 0x02C6
  else if b = 0x89 then some 0x2030 else if b = 0x8A then some 0x0160
  else if b = 0x8B then some 0x2039 else if b = 0x8C then some 0x0152
  else if b = 0x8E then some 0x017D else if b = 0x91 then some 0x2018
  else if b = 0x92 then some 0x2019 else if b = 0x93 then some 0x201C
  else if b = 0x94 then some 0x201D else if b = 0x95 then some 0x2022
  else if b = 0x96 then some 0x2013 else if b = 0x97 then some 0x2014
  else if b = 0x98 then some 0x02DC else if b = 0x99 then some 0x2122
  else if b = 0x9A then some 0x0161 else if b = 0x9B then some 0x203A
  else if b = 0x9C then some 0x0153 else if b = 0x9E then some 0x017E
  else if b = 0x9F then some 0x0178 else none

/-- Windows-1252 decoding, modelling `bytes.decode("cp1252")`: bytes below
`0x80` and from `0xA0` up map to themselves, bytes `0x80`–`0x9F` map
through `cp1252High`, failing on the five unassigned bytes. -/
def cp1252Decode : List Nat → Option (List Char)
  | [] => some []
  | b :: bs =>
    if b < 0x80 || 0xA0 ≤ b then
      (cp1252Decode bs).map (Char.ofNat b :: ·)
    else
      match cp1252High b with
      | some cp => (cp1252Decode bs).map (Char.ofNat cp :: ·)
      | none => none

/-- Length of the longest prefix of `b0 :: rest` that is a prefix of some
valid UTF-8 sequence (at least 1), used by the replacing decoder to skip a
maximal invalid subpart, as CPython's `errors="replace"` handler does. -/
def utf8InvalidSkip (b0 : Nat) (rest : List Nat) : Nat :=
  if 0xC2 ≤ b0 && b0 ≤ 0xDF then 1
  else if 0xE0 ≤ b0 && b0 ≤ 0xEF then
    match rest with
    | b1 :: _ => if utf8Cont3 b0 b1 then 2 else 1
    | [] => 1
  else if 0xF0 ≤ b0 && b0 ≤ 0xF4 then
    match rest with
    | b1 :: b2 :: _ =>
      if utf8Cont4 b0 b1 then (if contB b2 then 3 else 2) else 1
    | [b1] => if utf8Cont4 b0 b1 then 2 else 1
    | [] => 1
  else 1

/-- Fuelled worker for `utf8DecodeReplace`; fuel bounds the number of
decoded-or-replaced units, and one byte is consumed per unit at least. -/
def utf8DecodeReplaceGo : Nat → List Nat → List Char
  | 0, _ => []
  | _, [] => []
  | fuel + 1, b0 :: rest =>
    if b0 ≤ 0x7F then
      Char.ofNat b0 :: utf8DecodeReplaceGo fuel rest
    else if 0xC2 ≤ b0 && b0 ≤ 0xDF then
      match rest with
      | b1 :: rest2 =>
        if contB b1 then
          Char.ofNat ((b0 - 0xC0) * 64 + (b1 - 0x80)) :: utf8DecodeReplaceGo fuel rest2
        else Char.ofNat 0xFFFD :: utf8DecodeReplaceGo fuel rest
      | [] => [Char.ofNat 0xFFFD]
    else if 0xE0 ≤ b0 && b0 ≤ 0xEF then
      match rest with
      | b1 :: b2 :: rest3 =>
        if utf8Cont3 b0 b1 && contB b2 then
          Char.ofNat ((b0 - 0xE0) * 4096 + (b1 - 0x80) * 64 + (b2 - 0x80)) ::
            utf8DecodeReplaceGo fuel rest3
        else
          Char.ofNat 0xFFFD ::
            utf8DecodeReplaceGo fuel ((b1 :: b2 :: rest3).drop (utf8InvalidSkip b0 rest - 1))
      | _ =>
        if match rest with | [b1] => utf8Cont3 b0 b1 | _ => false
        then [Char.ofNat 0xFFFD]
        else Char.ofNat 0xFFFD :: utf8DecodeReplaceGo fuel (rest.drop (utf8InvalidSkip b0 rest - 1))
    else if 0xF0 ≤ b0 && b0 ≤ 0xF4 then
      match rest with
      | b1 :: b2 :: b3 :: rest4 =>
        if utf8Cont4 b0 b1 && contB b2 && contB b3 then
          Char.ofNat ((b0 - 0xF0) * 262144 + (b1 - 0x80) * 4096 +
            (b2 - 0x80) * 64 + (b3 - 0x80)) :: utf8DecodeReplaceGo fuel rest4
        else
          Char.ofNat 0xFFFD ::
            utf8DecodeReplaceGo fuel ((b1 :: b2 :: b3 :: rest4).drop (utf8InvalidSkip b0 rest - 1))
      | _ =>
        if rest.length + 1 = utf8InvalidSkip b0 rest then [Char.ofNat 0xFFFD]
        else Char.ofNat 0xFFFD :: utf8DecodeReplaceGo fuel (rest.drop (utf8InvalidSkip b0 rest - 1))
    else Char.ofNat 0xFFFD :: utf8DecodeReplaceGo fuel rest

/-- UTF-8 decoding with `errors="replace"`, modelling
`bytes.decode("utf-8", errors="replace")`: each maximal invalid subpart is
replaced by one U+FFFD.  (In `extract_text_from_txt` this branch is
unreachable, because the Latin-1 attempt before it always succeeds.) -/
def utf8DecodeReplace (bs : List Nat) : List Char :=
  utf8DecodeReplaceGo bs.length bs

/-- Embedding of `DocumentProcessor.extract_text_from_txt`
(`src/tools/document.py` lines 95–112): try the encodings
`utf-8`, `latin-1`, `cp1252`, `iso-8859-1` in order (ISO-8859-1 is the same
codec as Latin-1), return the first successful decoding, and if all fail
force-decode UTF-8 with replacement.  No branch raises, so the function is
total. -/
def extract_text_from_txt (file_bytes : List Nat) : List Char :=
  match utf8Decode file_bytes with
  | some t => t
  | none =>
    match latin1Decode file_bytes with
    | some t => t
    | none =>
      match cp1252Decode file_bytes with
      | some t => t
      | none =>
        match latin1Decode file_bytes with
        | some t => t
        | none => utf8DecodeReplace file_bytes

/-- Decoder sanity checks: ASCII, a two-byte char, rejection of overlongs,
surrogates and bare continuation bytes. -/
example : utf8Decode [0x68, 0x69] = some (chars ("hi")) := by decide
example : utf8Decode [0xCE, 0xB1] = some [Char.ofNat 0x3B1] := by decide
example : utf8Decode [0xC0, 0xAF] = none := by decide
example : utf8Decode [0xED, 0xA0, 0x80] = none := by decide
example : utf8Decode [0x80] = none := by decide
example : utf8Decode [0xE2, 0x82, 0xAC] = some [Char.ofNat 0x20AC] := by decide
example : utf8Decode [0xF0, 0x9F, 0x98, 0x80] = some [Char.ofNat 0x1F600] := by decide
example : utf8Encode [Char.ofNat 0x1F600] = [0xF0, 0x9F, 0x98, 0x80] := by decide

/-- Evaluating `Char.ofNat` at a valid code point and reading the code point
back is the identity. -/
theorem toNat_charOfNat {n : Nat} (h : n.isValidChar) : (Char.ofNat n).toNat = n := by
  rw [Char.ofNat, dif_pos h]
  rfl

/-- Numeric bounds carried by a passing `utf8Cont3` check. -/
theorem utf8Cont3_bounds {b0 b1 : Nat} (h : utf8Cont3 b0 b1 = true) :
    0x80 ≤ b1 ∧ b1 ≤ 0xBF ∧ (b0 = 0xE0 → 0xA0 ≤ b1) ∧ (b0 = 0xED → b1 ≤ 0x9F) := by
  unfold utf8Cont3 contB at h
  split_ifs at h <;> simp_all <;> omega

/-- Numeric bounds carried by a passing `utf8Cont4` check. -/
theorem utf8Cont4_bounds {b0 b1 : Nat} (h : utf8Cont4 b0 b1 = true) :
    0x80 ≤ b1 ∧ b1 ≤ 0xBF ∧ (b0 = 0xF0 → 0x90 ≤ b1) ∧ (b0 = 0xF4 → b1 ≤ 0x8F) := by
  unfold utf8Cont4 contB at h
  split_ifs at h <;> simp_all <;> omega

/-- Encoding inverts a one-byte decode step. -/
theorem utf8EncodeChar_one {b0 : Nat} (h : b0 ≤ 0x7F) :
    utf8EncodeChar (Char.ofNat b0) = [b0] := by
  have hv : b0.isValidChar := Or.inl (by omega)
  simp only [utf8EncodeChar, toNat_charOfNat hv]
  rw [if_pos (by omega)]

/-- Encoding inverts a two-byte decode step. -/
theorem utf8EncodeChar_two {b0 b1 : Nat} (h0 : 0xC2 ≤ b0) (h1 : b0 ≤ 0xDF)
    (h2 : 0x80 ≤ b1) (h3 : b1 ≤ 0xBF) :
    utf8EncodeChar (Char.ofNat ((b0 - 0xC0) * 64 + (b1 - 0x80))) = [b0, b1] := by
  have hv : ((b0 - 0xC0) * 64 + (b1 - 0x80)).isValidChar := Or.inl (by omega)
  simp only [utf8EncodeChar, toNat_charOfNat hv]
  rw [if_neg (by omega), if_pos (by omega)]
  simp only [List.cons.injEq, and_true]
  omega

/-- Encoding inverts a three-byte decode step. -/
theorem utf8EncodeChar_three {b0 b1 b2 : Nat} (h0 : 0xE0 ≤ b0) (h1 : b0 ≤ 0xEF)
    (hc : utf8Cont3 b0 b1 = true) (h2 : 0x80 ≤ b2) (h3 : b2 ≤ 0xBF) :
    utf8EncodeChar (Char.ofNat ((b0 - 0xE0) * 4096 + (b1 - 0x80) * 64 + (b2 - 0x80))) =
      [b0, b1, b2] := by
  obtain ⟨hb1, hb2, he0, hed⟩ := utf8Cont3_bounds hc
  have hv : ((b0 - 0xE0) * 4096 + (b1 - 0x80) * 64 + (b2 - 0x80)).isValidChar := by
    rcases eq_or_ne b0 0xED with rfl | hne
    · exact Or.inl (by omega)
    · rcases Nat.lt_or_ge b0 0xED with hlt | hge
      · exact Or.inl (by omega)
      · exact Or.inr (by omega)
  simp only [utf8EncodeChar, toNat_charOfNat hv]
  rw [if_neg (by omega), if_neg (by omega), if_pos (by omega)]
  simp only [List.cons.injEq, and_true]
  refine ⟨by omega, by omega, by omega⟩

/-- Encoding inverts a four-byte decode step. -/
theorem utf8EncodeChar_four {b0 b1 b2 b3 : Nat} (h0 : 0xF0 ≤ b0) (h1 : b0 ≤ 0xF4)
    (hc : utf8Cont4 b0 b1 = true) (h2 : 0x80 ≤ b2) (h3 : b2 ≤ 0xBF)
    (h4 : 0x80 ≤ b3) (h5 : b3 ≤ 0xBF) :
    utf8EncodeChar (Char.ofNat
      ((b0 - 0xF0) * 262144 + (b1 - 0x80) * 4096 + (b2 - 0x80) * 64 + (b3 - 0x80))) =
      [b0, b1, b2, b3] := by
  obtain ⟨hb1, hb2, hf0, hf4⟩ := utf8Cont4_bounds hc
  have hv : ((b0 - 0xF0) * 262144 + (b1 - 0x80) * 4096 + (b2 - 0x80) * 64 +
      (b3 - 0x80)).isValidChar := by
    refine Or.inr ⟨by omega, ?_⟩
    rcases eq_or_ne b0 0xF4 with rfl | hne
    · have := hf4 rfl; omega
    · omega
  simp only [utf8EncodeChar, toNat_charOfNat hv]
  rw [if_neg (by omega), if_neg (by omega), if_neg (by omega)]
  simp only [List.cons.injEq, and_true]
  refine ⟨by omega, by omega, by omega, by omega⟩

/-- Numeric bounds carried by a passing continuation-byte check. -/
theorem contB_bounds {b : Nat} (h : contB b = true) : 0x80 ≤ b ∧ b ≤ 0xBF := by
  unfold contB at h
  simp at h
  exact h

/-- A successful `utf8Step` consumed exactly the encoding of the decoded
character, and at least one byte. -/
theorem utf8Step_spec {bs : List Nat} {c : Char} {rest : List Nat}
    (h : utf8Step bs = some (c, rest)) :
    utf8EncodeChar c ++ rest = bs ∧ rest.length < bs.length := by
  match bs with
  | [] => exact Option.noConfusion h
  | b0 :: tl =>
    rw [utf8Step.eq_def] at h
    dsimp only at h
    split_ifs at h with h1 h2 h3 h4
    · simp only [Option.some.injEq, Prod.mk.injEq] at h
      obtain ⟨rfl, rfl⟩ := h
      rw [utf8EncodeChar_one h1]
      exact ⟨rfl, by simp only [List.length_cons]; omega⟩
    · cases tl with
      | nil => exact Option.noConfusion h
      | cons b1 tl2 =>
        dsimp only at h
        split_ifs at h with hc
        · simp only [Option.some.injEq, Prod.mk.injEq] at h
          obtain ⟨rfl, rfl⟩ := h
          obtain ⟨hcb1, hcb2⟩ := contB_bounds hc
          rw [utf8EncodeChar_two h2.1 h2.2 hcb1 hcb2]
          exact ⟨rfl, by simp only [List.length_cons]; omega⟩
    · match tl with
      | [] => exact Option.noConfusion h
      | [b1] => exact Option.noConfusion h
      | b1 :: b2 :: tl3 =>
        dsimp only at h
        split_ifs at h with hc
        · simp only [Option.some.injEq, Prod.mk.injEq] at h
          obtain ⟨rfl, rfl⟩ := h
          obtain ⟨hcb1, hcb2⟩ := contB_bounds hc.2
          rw [utf8EncodeChar_three h3.1 h3.2 hc.1 hcb1 hcb2]
          exact ⟨rfl, by simp only [List.length_cons]; omega⟩
    · match tl with
      | [] => exact Option.noConfusion h
      | [b1] => exact Option.noConfusion h
      | [b1, b2] => exact Option.noConfusion h
      | b1 :: b2 :: b3 :: tl4 =>
        dsimp only at h
        split_ifs at h with hc
        · simp only [Option.some.injEq, Prod.mk.injEq] at h
          obtain ⟨rfl, rfl⟩ := h
          obtain ⟨hcb1, hcb2⟩ := contB_bounds hc.2.1
          obtain ⟨hcb3, hcb4⟩ := contB_bounds hc.2.2
          rw [utf8EncodeChar_four h4.1 h4.2 hc.1 hcb1 hcb2 hcb3 hcb4]
          exact ⟨rfl, by simp only [List.length_cons]; omega⟩

/-- Any fuel of at least `bs.length` gives the same decoding result. -/
theorem utf8DecodeGo_fuel (fuel : Nat) :
    ∀ bs : List Nat, bs.length ≤ fuel → ∀ fuel', bs.length ≤ fuel' →
      utf8DecodeGo fuel bs = utf8DecodeGo fuel' bs := by
  induction fuel with
  | zero =>
    intro bs hb fuel' hb'
    obtain rfl : bs = [] := List.length_eq_zero.mp (Nat.le_zero.mp hb)
    cases fuel' <;> rfl
  | succ fuel ih =>
    intro bs hb fuel' hb'
    match bs with
    | [] => cases fuel' <;> rfl
    | b0 :: tl =>
      match fuel' with
      | 0 => exact absurd hb' (by simp)
      | f' + 1 =>
        rw [utf8DecodeGo, utf8DecodeGo]
        match hs : utf8Step (b0 :: tl) with
        | none => rfl
        | some (c, rest2) =>
          have hlen := (utf8Step_spec hs).2
          simp only [List.length_cons] at hb hb' hlen
          dsimp only
          rw [ih rest2 (by omega) f' (by omega)]

/-- Worker for the UTF-8 round trip: induction on the fuel. -/
theorem utf8DecodeGo_encode (fuel : Nat) :
    ∀ (bs : List Nat) (cs : List Char), utf8DecodeGo fuel bs = some cs →
      utf8Encode cs = bs := by
  induction fuel with
  | zero =>
    intro bs cs h
    match bs with
    | [] =>
      have h0 : some ([] : List Char) = some cs := h
      cases h0
      rfl
    | b :: tl => exact Option.noConfusion h
  | succ fuel ih =>
    intro bs cs h
    match bs with
    | [] =>
      have h0 : some ([] : List Char) = some cs := h
      cases h0
      rfl
    | b0 :: tl =>
      rw [utf8DecodeGo] at h
      match hs : utf8Step (b0 :: tl) with
      | none => rw [hs] at h; exact Option.noConfusion h
      | some (c, rest2) =>
        rw [hs] at h
        dsimp only at h
        rcases Option.map_eq_some'.mp h with ⟨cs', hdec, rfl⟩
        rw [utf8Encode, ih rest2 cs' hdec]
        exact (utf8Step_spec hs).1

/-- UTF-8 round trip: a successful strict decode re-encodes to the original
bytes. -/
theorem utf8Encode_utf8Decode {bs : List Nat} {cs : List Char}
    (h : utf8Decode bs = some cs) : utf8Encode cs = bs :=
  utf8DecodeGo_encode bs.length bs cs h

/-- Outcome of the `olefile` calls inside `extract_text_from_doc`
(`src/tools/document.py` lines 55-64).  `olefile` is third-party code, so
its behaviour on the given bytes enters the embedding as a parameter:
`parsed b` means `OleFileIO` succeeded and `b` records whether
`_olestream_size` was non-`None`; `raises msg` means some statement of the
try-block raised with message `msg` (including `ImportError` and malformed
OLE data). -/
inductive OleOutcome where
  | parsed (olestreamSizeKnown : Bool)
  | raises (msg : List Char)
deriving DecidableEq

/-- Fixed degraded-support notice returned for structurally valid DOC files
(`src/tools/document.py` line 62). -/
def docPlaceholderNotice : List Char :=
  chars ("DOC file detected but full text extraction requires additional libraries. Please convert to DOCX format for better support.")

/-- Embedding of the try-block of `extract_text_from_doc`: raise whatever
the `olefile` interaction raised, raise "Invalid DOC file" when
`_olestream_size` is `None`, otherwise return the fixed notice. -/
def extract_doc_structured (ole : OleOutcome) : Except (List Char) (List Char) :=
  match ole with
  | .raises msg => .error msg
  | .parsed false => .error (chars ("Invalid DOC file"))
  | .parsed true => .ok docPlaceholderNotice

/-- Latin-1 decoding with `errors="ignore"`, modelling
`file_bytes.decode('latin-1', errors='ignore')`: Latin-1 assigns every byte
value a code point, so nothing is ever dropped and decoding never fails. -/
def latin1IgnoreDecode (bs : List Nat) : Option (List Char) :=
  some (bs.map Char.ofNat)

/-- Embedding of `DocumentProcessor.extract_text_from_doc`
(`src/tools/document.py` lines 51-71): on any failure of the structured
parse, fall back to Latin-1 decoding with invalid bytes ignored; only if
that also failed (it cannot) re-raise a "Failed to extract text from DOC"
error. -/
def extract_text_from_doc (ole : OleOutcome) (file_bytes : List Nat) :
    Except (List Char) (List Char) :=
  match extract_doc_structured ole with
  | .ok text => .ok text
  | .error e =>
    match latin1IgnoreDecode file_bytes with
    | some t => .ok t
    | none => .error (chars ("Failed to extract text from DOC: ") ++ e)

/-- Index of the last occurrence of `c` in a character list. -/
def lastIndexOfChar (c : Char) : List Char → Option Nat
  | [] => none
  | x :: xs =>
    match lastIndexOfChar c xs with
    | some i => some (i + 1)
    | none => if x = c then some 0 else none

/-- Final path component (the part after the last "/"). -/
def lastComponent (f : List Char) : List Char :=
  (pySplitOn f (chars ("/"))).getLastD f

/-- Extension of the final path component, modelling
`pathlib.Path(filename).suffix`: the final component's substring from its
last dot, empty when there is no dot, the dot is the first character, or
the dot is the last character. -/
def pathSuffix (filename : List Char) : List Char :=
  let name := lastComponent filename
  match lastIndexOfChar '.' name with
  | none => []
  | some i => if 0 < i ∧ i < name.length - 1 then name.drop i else []

/-- Lower-cased extension, modelling `Path(filename).suffix.lower()`
(`src/tools/document.py` line 168). -/
def fileExtensionOf (filename : List Char) : List Char :=
  pyLower (pathSuffix filename)

/-- Suffix extraction sanity checks. -/
example : pathSuffix (chars ("report.TXT")) = chars (".TXT") := by decide
example : fileExtensionOf (chars ("report.TXT")) = chars (".txt") := by decide
example : pathSuffix (chars ("archive.tar.gz")) = chars (".gz")  := by decide
example : pathSuffix (chars (".hidden")) = [] := by decide
example : pathSuffix (chars ("noext")) = [] := by decide

/-- One stored per-user document session, mirroring the dict stored in
`document_storage[clean_phone]` (`src/tools/document.py` lines 188-196).
The upload timestamp is the literal string "now" on POSIX (`os.name` is
not "nt" there), which is the platform this development models. -/
structure Session where
  docId : List Char
  filename : List Char
  fileType : List Char
  extractedText : List Char
  fileBytes : List Nat
  phoneNumber : List Char
  uploadTime : List Char
deriving DecidableEq

/-- The module-level `document_storage` dict, modelled as the lookup
function it implements: each key maps to at most one session by
construction. -/
abbrev Storage := List Char → Option Session

/-- Phone normalization as written inside `upload_document`
(`src/tools/document.py` lines 162-164): strip edge whitespace, remove
space and hyphen characters, then ensure a leading "+", prepending an
extra "1" unless the cleaned string starts with "1" or is longer than 10
characters. -/
def uploadCleanPhone (phone_number : List Char) : List Char :=
  let clean := pyReplace (pyReplace (pyStrip phone_number) (chars (" ")) []) (chars ("-")) []
  if pyStartsWith clean (chars ("+")) then clean
  else if pyStartsWith clean (chars ("1")) || clean.length > 10 then '+' :: clean
  else '+' :: '1' :: clean

/-- Phone normalization as written inside `process_document`
(`src/tools/document.py` lines 238-240); textually the same computation as
in `upload_document`. -/
def processCleanPhone (phone_number : List Char) : List Char :=
  let clean := pyReplace (pyReplace (pyStrip phone_number) (chars (" ")) []) (chars ("-")) []
  if pyStartsWith clean (chars ("+")) then clean
  else if pyStartsWith clean (chars ("1")) || clean.length > 10 then '+' :: clean
  else '+' :: '1' :: clean

/-- Phone normalization as written inside `search_document`
(`src/tools/document.py` lines 406-408); textually the same computation as
in `upload_document`. -/
def searchCleanPhone (phone_number : List Char) : List Char :=
  let clean := pyReplace (pyReplace (pyStrip phone_number) (chars (" ")) []) (chars ("-")) []
  if pyStartsWith clean (chars ("+")) then clean
  else if pyStartsWith clean (chars ("1")) || clean.length > 10 then '+' :: clean
  else '+' :: '1' :: clean

/-- Keyword trigger sets of `_detect_document_type`
(`src/tools/document.py` lines 756-778). -/
def cCodeKeywords : List (List Char) :=
  [chars ("#include"), chars ("int main"), chars ("void main"), chars ("printf"), chars ("scanf")]

/-- Python-code trigger set of `_detect_document_type`. -/
def pythonCodeKeywords : List (List Char) :=
  [chars ("def "), chars ("import "), chars ("print("), chars ("if __name__")]

/-- JavaScript trigger set of `_detect_document_type`. -/
def jsCodeKeywords : List (List Char) :=
  [chars ("function"), chars ("var "), chars ("let "), chars ("console.log"), chars ("document.")]

/-- Research-paper trigger set of `_detect_document_type`. -/
def researchKeywords : List (List Char) :=
  [chars ("abstract"), chars ("introduction"), chars ("methodology"), chars ("bibliography")]

/-- Lab-report trigger set of `_detect_document_type`. -/
def labReportKeywords : List (List Char) :=
  [chars ("experiment"), chars ("procedure"), chars ("results"), chars ("conclusion"), chars ("hypothesis")]

/-- Business-document trigger set of `_detect_document_type`. -/
def businessKeywords : List (List Char) :=
  [chars ("meeting"), chars ("agenda"), chars ("action items"), chars ("quarterly")]

/-- Python `any(keyword in text for keyword in keywords)`. -/
def anyKeywordIn (text : List Char) (keywords : List (List Char)) : Bool :=
  keywords.any (fun k => containsSub text k)

/-- Embedding of `_detect_document_type` (`src/tools/document.py` lines
756-778): a priority-ordered keyword-presence scan over the lower-cased
text; the first matching category wins, C/C++ before Python before
JavaScript before Research Paper before Lab Report before Business
Document, defaulting to General Document. -/
def detect_document_type (text : List Char) : List Char :=
  let text_lower := pyLower text
  if anyKeywordIn text_lower cCodeKeywords then chars ("C/C++ Code")
  else if anyKeywordIn text_lower pythonCodeKeywords then chars ("Python Code")
  else if anyKeywordIn text_lower jsCodeKeywords then chars ("JavaScript Code")
  else if anyKeywordIn text_lower researchKeywords then chars ("Research Paper")
  else if anyKeywordIn text_lower labReportKeywords then chars ("Lab Report")
  else if anyKeywordIn text_lower businessKeywords then chars ("Business Document")
  else chars ("General Document")

/-- Classifier sanity checks. -/
example : detect_document_type (chars ("We present an Abstract and methodology")) =
    chars ("Research Paper") := by decide
example : detect_document_type (chars ("hello world")) = chars ("General Document") := by decide

/-- Python exception escaping a tool body; `process_document` has no
try/except, so the only raising operation in it, true division with a zero
denominator, escapes to the caller. -/
inductive PyExn where
  | zeroDivision
deriving DecidableEq

/-- Punctuation set of `word.lower().strip('.,!?;:"()[]\x7b\x7d')` used by the
analyze and word_count operations (`src/tools/document.py` lines 289 and
339). -/
def punctSet : List Char := chars (".,!?;:\"()[]\x7b\x7d")

/-- Word normalization `word.lower().strip(punctuation)`. -/
def normWord (w : List Char) : List Char := pyStripChars punctSet (pyLower w)

/-- Formal-tone marker keywords (`src/tools/document.py` line 297). -/
def formalKeywords : List (List Char) :=
  [chars ("therefore"), chars ("however"), chars ("furthermore"), chars ("consequently")]

/-- Informal-tone marker keywords (`src/tools/document.py` line 298). -/
def informalKeywords : List (List Char) :=
  [chars ("like"), chars ("really"), chars ("pretty"), chars ("kinda")]

/-- Tone label of the analyze operation ("Document appears to be",
`src/tools/document.py` lines 296-300): formal markers checked first, then
informal markers, else "Standard".  This is the only classification-like
output of `process_document`'s analyze branch; it does not call
`_detect_document_type`. -/
def appearsLabel (text : List Char) : List Char :=
  if anyKeywordIn (pyLower text) formalKeywords then chars ("Technical/Formal")
  else if anyKeywordIn (pyLower text) informalKeywords then chars ("Casual/Informal")
  else chars ("Standard")

/-- Importance keywords of the extract_key_points operation
(`src/tools/document.py` line 308). -/
def importanceKeywords : List (List Char) :=
  [chars ("important"), chars ("key"), chars ("main"), chars ("significant"),
   chars ("critical"), chars ("essential"), chars ("primary"), chars ("major"),
   chars ("conclusion"), chars ("result")]

/-- Occurrence counts in first-encounter key order, modelling
`collections.Counter` built from an iteration. -/
def countOcc (l : List (List Char)) : List (List Char × Nat) :=
  l.foldl
    (fun acc w =>
      if acc.any (fun p => p.1 = w) then
        acc.map (fun p => if p.1 = w then (p.1, p.2 + 1) else p)
      else acc ++ [(w, 1)])
    []

/-- Stable insert for descending-by-count order: the new entry goes after
existing entries with a count at least as large, preserving
first-encounter order among ties as `Counter.most_common` does. -/
def insertDescByCount (x : List Char × Nat) : List (List Char × Nat) → List (List Char × Nat)
  | [] => [x]
  | y :: ys => if x.2 ≤ y.2 then y :: insertDescByCount x ys else x :: y :: ys

/-- Stable sort by descending count, modelling `Counter.most_common`. -/
def sortDescByCount (l : List (List Char × Nat)) : List (List Char × Nat) :=
  l.foldl (fun acc x => insertDescByCount x acc) []

/-- Data interpolated into the "Document Summary" report
(`src/tools/document.py` lines 249-271).  The words-per-sentence average
shown in the report is `wordCount / sentenceCount` (true division, safe
because a Python `split` with a separator never returns an empty list). -/
structure SummaryReport where
  cleanPhone : List Char
  filename : List Char
  wordCount : Nat
  charCount : Nat
  summary : List Char
  sentenceCount : Nat
  readingTimeMinutes : Nat
deriving DecidableEq

/-- Data interpolated into the "Document Analysis" report
(`src/tools/document.py` lines 273-301).  The average-paragraph-length
figure shown is `wordCount / paragraphCount` (true division, which raises
when `paragraphCount` is zero — see `process_document`). -/
structure AnalyzeReport where
  cleanPhone : List Char
  filename : List Char
  totalLines : Nat
  paragraphCount : Nat
  wordCount : Nat
  charCount : Nat
  uniqueWordCount : Nat
  longestParagraphWords : Nat
  densityLabel : List Char
  appears : List Char
deriving DecidableEq

/-- Data interpolated into the "Key Points Extracted" report
(`src/tools/document.py` lines 304-333). -/
structure KeyPointsReport where
  cleanPhone : List Char
  filename : List Char
  points : List (List Char)
  sentencesAnalyzed : Nat
  keyPointCount : Nat
deriving DecidableEq

/-- Data interpolated into the "Word Count Analysis" report
(`src/tools/document.py` lines 335-361).  The average word length shown is
`totalWordLength / totalWords` (true division, which raises when
`totalWords` is zero). -/
structure WordCountReport where
  cleanPhone : List Char
  filename : List Char
  totalWords : Nat
  uniqueWords : Nat
  charsWithSpaces : Nat
  charsWithoutSpaces : Nat
  mostCommon : List (List Char × Nat)
  readingTimeMinutes : Nat
  totalWordLength : Nat
deriving DecidableEq

/-- Data interpolated into the "Cleaned Document" report
(`src/tools/document.py` lines 363-392). -/
structure FormatCleanReport where
  cleanPhone : List Char
  filename : List Char
  cleanedPreview : List Char
  previewTruncated : Bool
  originalLines : Nat
  cleanedLines : Nat
deriving DecidableEq

-- Decidable equality for `Except` results, for concrete evaluation.
deriving instance DecidableEq for Except

/-- Result of one `process_document` call: the branch taken and the data
its report interpolates. -/
inductive ProcResult where
  | noDocument (cleanPhone : List Char)
  | summarized (r : SummaryReport)
  | analyzed (r : AnalyzeReport)
  | keyPoints (r : KeyPointsReport)
  | wordCounted (r : WordCountReport)
  | cleaned (r : FormatCleanReport)
  | unknownOperation (operation : List Char)
deriving DecidableEq

/-- Embedding of the `process_document` tool (`src/tools/document.py`
lines 229-395).  The body has no try/except, so a `ZeroDivisionError`
raised while formatting a report escapes as `.error`; every other path
returns `.ok` with the branch's report data.  The unused `instructions`
argument is kept for signature fidelity. -/
def process_document (storage : Storage) (phone_number operation instructions : List Char) :
    Except PyExn ProcResult :=
  let clean_phone := processCleanPhone phone_number
  match storage clean_phone with
  | none => .ok (.noDocument clean_phone)
  | some doc_data =>
    let text := doc_data.extractedText
    let filename := doc_data.filename
    if operation = chars ("summarize") then
      let words := pySplitWs text
      let word_count := words.length
      let sentences := pySplitOn (pyReplace text (chars ("\n")) (chars (" "))) (chars (". "))
      let summary := List.intercalate (chars (". ")) (sentences.take 3) ++ chars (".")
      if sentences.length = 0 then .error .zeroDivision
      else .ok (.summarized {
        cleanPhone := clean_phone
        filename := filename
        wordCount := word_count
        charCount := text.length
        summary := summary
        sentenceCount := sentences.length
        readingTimeMinutes := word_count / 200 + 1 })
    else if operation = chars ("analyze") then
      let lines := pySplitOn text (chars ("\n"))
      let paragraphs := (pySplitOn text (chars ("\n\n"))).filter (fun p => ¬(pyStrip p).isEmpty)
      let words := pySplitWs text
      if paragraphs.length = 0 then .error .zeroDivision
      else .ok (.analyzed {
        cleanPhone := clean_phone
        filename := filename
        totalLines := lines.length
        paragraphCount := paragraphs.length
        wordCount := words.length
        charCount := text.length
        uniqueWordCount := (words.map normWord).dedup.length
        longestParagraphWords := (paragraphs.map (fun p => (pySplitWs p).length)).foldl Nat.max 0
        densityLabel :=
          if 50 * paragraphs.length < words.length then chars ("High")
          else if 20 * paragraphs.length < words.length then chars ("Medium")
          else chars ("Low")
        appears := appearsLabel text })
    else if operation = chars ("extract_key_points") then
      let sentences :=
        ((pySplitOn (pyReplace text (chars ("\n")) (chars (" "))) (chars ("."))).map
          pyStrip).filter (fun s => 20 < s.length)
      let hits :=
        ((sentences.take 10).filter
          (fun s => anyKeywordIn (pyLower s) importanceKeywords)).map (· ++ chars ("."))
      let important_sentences := if hits.isEmpty then sentences.take 5 else hits
      .ok (.keyPoints {
        cleanPhone := clean_phone
        filename := filename
        points := important_sentences.take 5
        sentencesAnalyzed := sentences.length
        keyPointCount := important_sentences.length })
    else if operation = chars ("word_count") then
      let words := pySplitWs text
      let word_freq := countOcc (words.map normWord)
      if words.length = 0 then .error .zeroDivision
      else .ok (.wordCounted {
        cleanPhone := clean_phone
        filename := filename
        totalWords := words.length
        uniqueWords := word_freq.length
        charsWithSpaces := text.length
        charsWithoutSpaces := (pyReplace text (chars (" ")) []).length
        mostCommon := (sortDescByCount word_freq).take 10
        readingTimeMinutes := words.length / 200 + 1
        totalWordLength := (words.map List.length).sum })
    else if operation = chars ("format_clean") then
      let lines := pySplitOn text (chars ("\n"))
      let clean_lines := (lines.map pyStrip).filter (fun l => ¬l.isEmpty)
      let clean_text := List.intercalate (chars ("\n\n")) clean_lines
      .ok (.cleaned {
        cleanPhone := clean_phone
        filename := filename
        cleanedPreview := clean_text.take 2000
        previewTruncated := 2000 < clean_text.length
        originalLines := (pySplitOn text (chars ("\n"))).length
        cleanedLines := clean_lines.length })
    else .ok (.unknownOperation operation)

/-- One search hit: the match position in the search text and the
surrounding context slice `text[max(0, pos - 50) : min(len(text),
pos + len(search_query) + 50)]` taken from the original text
(`src/tools/document.py` lines 429-437). -/
structure Occurrence where
  position : Nat
  context : List Char
deriving DecidableEq

/-- Fuelled search loop of `search_document` (`src/tools/document.py`
lines 420-442): scan `searchText` with `str.find`, restart one character
past each match start, and stop after the tenth hit (the source breaks
once `len(occurrences) >= 10` right after appending).  Fuel 10 is passed
at the single call site, so the fuel bound is exactly the result cap. -/
def searchOccGo (text searchText query : List Char) (queryLen : Nat) :
    Nat → Nat → List Occurrence
  | 0, _ => []
  | fuel + 1, start =>
    match findFrom searchText query start with
    | none => []
    | some pos =>
      let context_start := pos - 50
      let context_end := min text.length (pos + queryLen + 50)
      { position := pos, context := (text.take context_end).drop context_start } ::
        searchOccGo text searchText query queryLen fuel (pos + 1)

/-- Result of one `search_document` call: the branch taken and the data
its report interpolates.  `truncatedNote` records whether the "Showing
first 10 matches only" note is rendered (`len(occurrences) >= 10`). -/
inductive SearchResult where
  | noDocument (cleanPhone : List Char)
  | noMatches (cleanPhone filename query : List Char)
  | found (cleanPhone filename query : List Char) (occurrences : List Occurrence)
      (truncatedNote : Bool)
deriving DecidableEq

/-- Embedding of the `search_document` tool (`src/tools/document.py`
lines 397-475).  Case-insensitive search lowers both the text and the
query but slices contexts from the original text using the original
query's length. -/
def search_document (storage : Storage) (search_query phone_number : List Char)
    (case_sensitive : Bool) : SearchResult :=
  let clean_phone := searchCleanPhone phone_number
  match storage clean_phone with
  | none => .noDocument clean_phone
  | some doc_data =>
    let text := doc_data.extractedText
    let filename := doc_data.filename
    let search_text := if case_sensitive then text else pyLower text
    let query := if case_sensitive then search_query else pyLower search_query
    let occurrences := searchOccGo text search_text query search_query.length 10 0
    if occurrences.isEmpty then .noMatches clean_phone filename search_query
    else .found clean_phone filename search_query occurrences
      (decide (10 ≤ occurrences.length))

/-- External text extractors used by `upload_document` for the formats
whose parsing lives in third-party libraries (`python-docx`, `PyPDF2`),
plus the `olefile` outcome consumed by `extract_text_from_doc`; `.error`
models the wrapper raising, `.ok` the text it returns. -/
structure ExternalExtractors where
  docx : List Nat → Except (List Char) (List Char)
  pdf : List Nat → Except (List Char) (List Char)
  ole : OleOutcome

/-- Result of one `upload_document` call. -/
inductive UploadResult where
  | success (sess : Session)
  | unsupported (ext : List Char)
  | failed (msg : List Char)
deriving DecidableEq

/-- Embedding of the `upload_document` tool (`src/tools/document.py`
lines 152-227) from the point where the document bytes are available (the
base64 transport decode is out-of-scope glue per the specification).
`doc_id` stands for the `uuid4`-generated identifier and the upload time
is the literal "now" of the POSIX branch.  The catch-all `except` turns
any extractor exception into `.failed` without touching the store;
unsupported extensions return before storing. -/
def upload_document (ext : ExternalExtractors) (doc_id : List Char) (storage : Storage)
    (file_bytes : List Nat) (filename phone_number : List Char) :
    Storage × UploadResult :=
  let clean_phone := uploadCleanPhone phone_number
  let file_extension := fileExtensionOf filename
  let store : List Char → Storage × UploadResult := fun extracted_text =>
    let sess : Session :=
      { docId := doc_id
        filename := filename
        fileType := file_extension
        extractedText := extracted_text
        fileBytes := file_bytes
        phoneNumber := clean_phone
        uploadTime := chars ("now") }
    (fun k => if k = clean_phone then some sess else storage k, .success sess)
  if file_extension = chars (".docx") then
    match ext.docx file_bytes with
    | .ok t => store t
    | .error e => (storage, .failed e)
  else if file_extension = chars (".doc") then
    match extract_text_from_doc ext.ole file_bytes with
    | .ok t => store t
    | .error e => (storage, .failed e)
  else if file_extension = chars (".pdf") then
    match ext.pdf file_bytes with
    | .ok t => store t
    | .error e => (storage, .failed e)
  else if file_extension = chars (".txt") then
    store (extract_text_from_txt file_bytes)
  else (storage, .unsupported file_extension)

/-- The search loop returns at most as many occurrences as it has fuel. -/
theorem searchOccGo_length_le (text searchText query : List Char) (queryLen : Nat) :
    ∀ fuel start, (searchOccGo text searchText query queryLen fuel start).length ≤ fuel := by
  intro fuel
  induction fuel with
  | zero => intro start; simp [searchOccGo]
  | succ fuel ih =>
    intro start
    rw [searchOccGo]
    cases hf : findFrom searchText query start with
    | none => simp
    | some pos =>
      simp only [List.length_cons]
      exact Nat.succ_le_succ (ih (pos + 1))

/-- Test fixture: external extractors that always fail (they are never
reached by TXT uploads). -/
def extFail : ExternalExtractors :=
  { docx := fun _ => Except.error []
    pdf := fun _ => Except.error []
    ole := OleOutcome.raises [] }

/-- Test fixture: a stored session holding the given extracted text under
the normalized identifier "+1p". -/
def testSession (text : List Char) : Session :=
  { docId := chars ("d")
    filename := chars ("f.txt")
    fileType := chars (".txt")
    extractedText := text
    fileBytes := []
    phoneNumber := chars ("+1p")
    uploadTime := chars ("now") }

/-- Test fixture: a store whose only entry is `testSession text` under
"+1p" (the normalization of "p"). -/
def testStorage (text : List Char) : Storage :=
  fun k => if k = chars ("+1p") then some (testSession text) else none

/-- C1: the claim says every public tool operation converts internal
failures into a formatted text response and that `process_document` never
lets an exception escape, in particular on empty or whitespace-only
extracted text.  The code disagrees: `process_document` has no try/except,
and for a session whose text is empty or whitespace-only the analyze and
word_count branches evaluate `len(words)/len(paragraphs)` resp.
`sum(...)/len(words)` with a zero denominator, so a `ZeroDivisionError`
escapes to the caller.  This theorem evaluates the embedded
`process_document` at those failing inputs. -/
theorem claim_C1_process_document_zero_division_escapes :
    process_document (testStorage []) (chars ("p")) (chars ("analyze")) [] =
      .error .zeroDivision ∧
    process_document (testStorage []) (chars ("p")) (chars ("word_count")) [] =
      .error .zeroDivision ∧
    process_document (testStorage (chars ("   "))) (chars ("p")) (chars ("analyze")) [] =
      .error .zeroDivision ∧
    process_document (testStorage (chars ("   "))) (chars ("p")) (chars ("word_count")) [] =
      .error .zeroDivision := by
  decide

/-- C2 counterexample: the claim's first example is wrong about the code.
"1234567890" starts with "1", so the normalization prepends only "+",
giving "+1234567890", not the claimed "+11234567890". -/
theorem claim_C2_normalization_example_counterexample :
    processCleanPhone (chars ("1234567890")) = chars ("+1234567890") ∧
    processCleanPhone (chars ("1234567890")) ≠ chars ("+11234567890") := by
  decide

/-- C2 (amended): identifier normalization is applied identically by
`upload_document`, `process_document` and `search_document`; it strips
edge whitespace, removes spaces and hyphens and, when the result lacks a
leading "+", prepends "+" if the string already starts with "1" or has
more than 10 characters and otherwise prepends "+1"; in particular
"1234567890" normalizes to "+1234567890" (it starts with "1") and
"+1 234-567-8900" normalizes to "+12345678900". -/
theorem claim_C2_normalization_rule :
    (∀ p : List Char,
      uploadCleanPhone p = processCleanPhone p ∧
      processCleanPhone p = searchCleanPhone p) ∧
    (∀ p : List Char,
      processCleanPhone p =
        (let clean := pyReplace (pyReplace (pyStrip p) (chars (" ")) []) (chars ("-")) []
         if pyStartsWith clean (chars ("+")) then clean
         else if pyStartsWith clean (chars ("1")) || clean.length > 10 then '+' :: clean
         else '+' :: '1' :: clean)) ∧
    processCleanPhone (chars ("1234567890")) = chars ("+1234567890") ∧
    processCleanPhone (chars ("+1 234-567-8900")) = chars ("+12345678900") := by
  refine ⟨fun p => ⟨rfl, rfl⟩, fun p => rfl, by decide, by decide⟩

/-- C6: for an identifier with no stored document, `process_document`
returns the distinct no-document-found response naming the normalized
identifier, for every operation and without raising. -/
theorem claim_C6_unregistered_identifier_not_found
    (storage : Storage) (phone_number operation instructions : List Char)
    (h : storage (processCleanPhone phone_number) = none) :
    process_document storage phone_number operation instructions =
      .ok (.noDocument (processCleanPhone phone_number)) := by
  rw [process_document.eq_def]
  dsimp only
  rw [h]

/-- C6 witness: the empty store at identifier "p" with operation
"analyze". -/
theorem claim_C6_unregistered_identifier_not_found_witness :
    process_document (fun _ => none) (chars ("p")) (chars ("analyze")) [] =
      .ok (.noDocument (processCleanPhone (chars ("p")))) :=
  claim_C6_unregistered_identifier_not_found (fun _ => none) (chars ("p"))
    (chars ("analyze")) [] rfl

/-- C10: legacy DOC extraction is total: for every `olefile` outcome and
every byte input, `extract_text_from_doc` returns a string and never
raises, because any failure of the structured parse falls back to Latin-1
decoding with invalid bytes ignored, which succeeds on every byte
sequence, leaving the final re-raise branch unreachable. -/
theorem claim_C10_doc_extraction_total (ole : OleOutcome) (file_bytes : List Nat) :
    ∃ text : List Char, extract_text_from_doc ole file_bytes = .ok text ∧
      (extract_text_from_doc ole file_bytes ≠
        .error (chars ("Failed to extract text from DOC: ") ++
          (match ole with
           | .raises msg => msg
           | .parsed false => chars ("Invalid DOC file")
           | .parsed true => []))) := by
  match ole with
  | .parsed true => exact ⟨docPlaceholderNotice, rfl, by simp [extract_text_from_doc, extract_doc_structured]⟩
  | .parsed false => exact ⟨file_bytes.map Char.ofNat, rfl, by simp [extract_text_from_doc, extract_doc_structured, latin1IgnoreDecode]⟩
  | .raises msg => exact ⟨file_bytes.map Char.ofNat, rfl, by simp [extract_text_from_doc, extract_doc_structured, latin1IgnoreDecode]⟩

/-- C3 counterexample: the claim also promises a zero-occurrence
"no matches" report for an *empty* search query, but Python's
`str.find("")` succeeds at every position, so an empty query on the
stored text "ab" yields three occurrences (positions 0, 1, 2) and the
match-listing report, not the no-matches report. -/
theorem claim_C3_empty_query_counterexample :
    search_document (testStorage (chars ("ab"))) [] (chars ("p")) false =
      .found (chars ("+1p")) (chars ("f.txt")) []
        [{ position := 0, context := chars ("ab") },
         { position := 1, context := chars ("ab") },
         { position := 2, context := chars ("ab") }] false ∧
    search_document (testStorage (chars ("ab"))) [] (chars ("p")) false ≠
      .noMatches (chars ("+1p")) (chars ("f.txt")) [] := by
  decide

/-- C3 (amended): for every stored document, `search_document` with a
query that does not occur in the (case-folded as selected) stored text
returns the zero-occurrence "no matches" report and never an error; an
empty query, by contrast, occurs at every scan position and produces the
match-listing report instead. -/
theorem claim_C3_no_match_query_reports_no_matches
    (storage : Storage) (search_query phone_number : List Char) (case_sensitive : Bool)
    (doc_data : Session)
    (hdoc : storage (searchCleanPhone phone_number) = some doc_data)
    (hno : containsSub
        (if case_sensitive then doc_data.extractedText else pyLower doc_data.extractedText)
        (if case_sensitive then search_query else pyLower search_query) = false) :
    search_document storage search_query phone_number case_sensitive =
      .noMatches (searchCleanPhone phone_number) doc_data.filename search_query := by
  rw [search_document.eq_def]
  dsimp only
  rw [hdoc]
  dsimp only
  have hfind : findFrom
      (if case_sensitive then doc_data.extractedText else pyLower doc_data.extractedText)
      (if case_sensitive then search_query else pyLower search_query) 0 = none := by
    unfold containsSub at hno
    exact Option.not_isSome_iff_eq_none.mp (by simp [hno])
  rw [searchOccGo, hfind]
  rfl

/-- C3 witness: searching the stored text "abc" for "xyz" reports no
matches. -/
theorem claim_C3_no_match_query_reports_no_matches_witness :
    search_document (testStorage (chars ("abc"))) (chars ("xyz")) (chars ("p")) false =
      .noMatches (searchCleanPhone (chars ("p"))) (testSession (chars ("abc"))).filename
        (chars ("xyz")) :=
  claim_C3_no_match_query_reports_no_matches (testStorage (chars ("abc"))) (chars ("xyz"))
    (chars ("p")) false (testSession (chars ("abc"))) (by decide) (by decide)

/-- The C4 end-to-end document: the TXT upload bytes of
"def foo(): pass\nThis is important: result matters.". -/
def c4Text : List Char := chars ("def foo(): pass\nThis is important: result matters.")

/-- Store produced by uploading the C4 document for identifier "p". -/
def c4Storage : Storage :=
  (upload_document extFail (chars ("d")) (fun _ => none) (utf8Encode c4Text)
    (chars ("notes.txt")) (chars ("p"))).1

/-- C4 counterexample: after uploading the C4 TXT document,
`process_document(operation=analyze)` does report 1 paragraph and 2
lines, but it does not classify the document as Python code: the analyze
branch never calls the document-type classifier, and its only
classification-like output — the "Document appears to be" label — is
"Standard" here, not a Python-code label. -/
theorem claim_C4_analyze_does_not_classify_python :
    process_document c4Storage (chars ("p")) (chars ("analyze")) [] =
      .ok (.analyzed
        { cleanPhone := chars ("+1p")
          filename := chars ("notes.txt")
          totalLines := 2
          paragraphCount := 1
          wordCount := 8
          charCount := 50
          uniqueWordCount := 8
          longestParagraphWords := 8
          densityLabel := chars ("Low")
          appears := chars ("Standard") }) ∧
    chars ("Standard") ≠ chars ("Python Code") := by
  constructor
  · rfl
  · decide

/-- C4 (amended): after uploading the C4 TXT document,
`process_document(operation=analyze)` reports 1 paragraph and 2 lines
with the tone label "Standard" (analyze does not invoke the classifier);
the document-type classifier `_detect_document_type`, applied to the same
extracted text (as `process_any_document` does), returns "Python Code". -/
theorem claim_C4_analyze_counts_and_classifier :
    process_document c4Storage (chars ("p")) (chars ("analyze")) [] =
      .ok (.analyzed
        { cleanPhone := chars ("+1p")
          filename := chars ("notes.txt")
          totalLines := 2
          paragraphCount := 1
          wordCount := 8
          charCount := 50
          uniqueWordCount := 8
          longestParagraphWords := 8
          densityLabel := chars ("Low")
          appears := chars ("Standard") }) ∧
    detect_document_type c4Text = chars ("Python Code") ∧
    extract_text_from_txt (utf8Encode c4Text) = c4Text := by
  refine ⟨by rfl, by decide, by decide⟩

/-- C8: for every byte sequence that strict UTF-8 decoding accepts, TXT
extraction returns exactly that decoding (UTF-8 is the first encoding
tried), and re-encoding the result in UTF-8 yields the original bytes. -/
theorem claim_C8_txt_extraction_utf8_roundtrip
    (file_bytes : List Nat) (decoded : List Char)
    (h : utf8Decode file_bytes = some decoded) :
    extract_text_from_txt file_bytes = decoded ∧
    utf8Encode (extract_text_from_txt file_bytes) = file_bytes := by
  have he : extract_text_from_txt file_bytes = decoded := by
    unfold extract_text_from_txt
    rw [h]
  exact ⟨he, by rw [he]; exact utf8Encode_utf8Decode h⟩

/-- C8 witness: the bytes of "hiα" (ASCII plus a two-byte sequence). -/
theorem claim_C8_txt_extraction_utf8_roundtrip_witness :
    extract_text_from_txt [0x68, 0x69, 0xCE, 0xB1] = chars ("hi") ++ [Char.ofNat 0x3B1] ∧
    utf8Encode (extract_text_from_txt [0x68, 0x69, 0xCE, 0xB1]) = [0x68, 0x69, 0xCE, 0xB1] :=
  claim_C8_txt_extraction_utf8_roundtrip [0x68, 0x69, 0xCE, 0xB1]
    (chars ("hi") ++ [Char.ofNat 0x3B1]) (by decide)

/-- C9 counterexample: the claim's universal clause fails: a text can
contain both "def " and "abstract" and still classify as C/C++ code,
because the C/C++ trigger set is checked first. -/
theorem claim_C9_def_abstract_counterexample :
    containsSub (pyLower (chars ("printf def abstract"))) (chars ("def ")) = true ∧
    containsSub (pyLower (chars ("printf def abstract"))) (chars ("abstract")) = true ∧
    detect_document_type (chars ("printf def abstract")) = chars ("C/C++ Code") ∧
    chars ("C/C++ Code") ≠ chars ("Python Code") := by
  decide

/-- C9 (amended): the classifier is a deterministic, priority-ordered
keyword-presence scan over the lower-cased text in which the first
matching category wins, code categories before academic and academic
before business; in particular every text containing "def " whose
lower-cased form contains none of the C/C++ triggers classifies as
Python Code (whether or not it also contains "abstract"), and the
category order is exhibited on concrete inputs. -/
theorem claim_C9_priority_order :
    (∀ text : List Char,
      containsSub (pyLower text) (chars ("def ")) = true →
      anyKeywordIn (pyLower text) cCodeKeywords = false →
      detect_document_type text = chars ("Python Code")) ∧
    detect_document_type (chars ("def f: abstract")) = chars ("Python Code") ∧
    detect_document_type (chars ("abstract meeting agenda")) = chars ("Research Paper") ∧
    detect_document_type (chars ("results of the meeting")) = chars ("Lab Report") := by
  refine ⟨?_, by decide, by decide, by decide⟩
  intro text h1 h2
  unfold detect_document_type
  rw [if_neg (by simp [h2]), if_pos (by simp [anyKeywordIn, pythonCodeKeywords, h1])]

/-- C9 witness: "def x" contains "def ", no C/C++ trigger, and classifies
as Python Code. -/
theorem claim_C9_priority_order_witness :
    detect_document_type (chars ("def x")) = chars ("Python Code") :=
  claim_C9_priority_order.1 (chars ("def x")) (by decide) (by decide)

/-- C7: search returns at most 10 occurrences, found by restarting one
character past each match start (so overlapping matches are possible, as
the "aa" in "aaa" example shows), and the report's truncation note is
rendered exactly when the 10-match cap is reached; in particular the
case-insensitive search for "foo" in "Foo bar foo baz FOO" returns 3
matches at positions 0, 8 and 16. -/
theorem claim_C7_search_cap_truncation_positions :
    (∀ (text searchText query : List Char) (queryLen start : Nat),
      (searchOccGo text searchText query queryLen 10 start).length ≤ 10) ∧
    (∀ (storage : Storage) (search_query phone_number : List Char) (case_sensitive : Bool)
      (cp f q : List Char) (occs : List Occurrence) (tn : Bool),
      search_document storage search_query phone_number case_sensitive =
        .found cp f q occs tn →
      occs.length ≤ 10 ∧ (tn = true ↔ occs.length = 10)) ∧
    search_document (testStorage (chars ("Foo bar foo baz FOO"))) (chars ("foo"))
        (chars ("p")) false =
      .found (chars ("+1p")) (chars ("f.txt")) (chars ("foo"))
        [{ position := 0, context := chars ("Foo bar foo baz FOO") },
         { position := 8, context := chars ("Foo bar foo baz FOO") },
         { position := 16, context := chars ("Foo bar foo baz FOO") }] false ∧
    search_document (testStorage (chars ("aaa"))) (chars ("aa")) (chars ("p")) false =
      .found (chars ("+1p")) (chars ("f.txt")) (chars ("aa"))
        [{ position := 0, context := chars ("aaa") },
         { position := 1, context := chars ("aaa") }] false ∧
    search_document (testStorage (chars ("aaaaaaaaaaaa"))) (chars ("a")) (chars ("p")) false =
      .found (chars ("+1p")) (chars ("f.txt")) (chars ("a"))
        [{ position := 0, context := chars ("aaaaaaaaaaaa") },
         { position := 1, context := chars ("aaaaaaaaaaaa") },
         { position := 2, context := chars ("aaaaaaaaaaaa") },
         { position := 3, context := chars ("aaaaaaaaaaaa") },
         { position := 4, context := chars ("aaaaaaaaaaaa") },
         { position := 5, context := chars ("aaaaaaaaaaaa") },
         { position := 6, context := chars ("aaaaaaaaaaaa") },
         { position := 7, context := chars ("aaaaaaaaaaaa") },
         { position := 8, context := chars ("aaaaaaaaaaaa") },
         { position := 9, context := chars ("aaaaaaaaaaaa") }] true := by
  refine ⟨?_, ?_, by decide, by decide, by decide⟩
  · intro text searchText query queryLen start
    exact searchOccGo_length_le text searchText query queryLen 10 start
  · intro storage search_query phone_number case_sensitive cp f q occs tn h
    rw [search_document.eq_def] at h
    dsimp only at h
    cases hst : storage (searchCleanPhone phone_number) with
    | none =>
      rw [hst] at h
      exact absurd h (by simp)
    | some doc_data =>
      rw [hst] at h
      dsimp only at h
      by_cases he : (searchOccGo doc_data.extractedText
          (if case_sensitive then doc_data.extractedText else pyLower doc_data.extractedText)
          (if case_sensitive then search_query else pyLower search_query)
          search_query.length 10 0).isEmpty
      · rw [if_pos he] at h
        exact absurd h (by simp)
      · rw [if_neg he] at h
        injection h with h1 h2 h3 h4 h5
        subst h4
        subst h5
        have hle := searchOccGo_length_le doc_data.extractedText
          (if case_sensitive then doc_data.extractedText else pyLower doc_data.extractedText)
          (if case_sensitive then search_query else pyLower search_query)
          search_query.length 10 0
        refine ⟨hle, ?_⟩
        simp only [decide_eq_true_eq]
        omega

/-- C7 witness: the "foo" example instantiates the cap-and-truncation
statement. -/
theorem claim_C7_search_cap_truncation_positions_witness :
    ([{ position := 0, context := chars ("Foo bar foo baz FOO") },
      { position := 8, context := chars ("Foo bar foo baz FOO") },
      { position := 16, context := chars ("Foo bar foo baz FOO") }] :
        List Occurrence).length ≤ 10 ∧
    (false = true ↔
      ([{ position := 0, context := chars ("Foo bar foo baz FOO") },
        { position := 8, context := chars ("Foo bar foo baz FOO") },
        { position := 16, context := chars ("Foo bar foo baz FOO") }] :
          List Occurrence).length = 10) :=
  claim_C7_search_cap_truncation_positions.2.1
    (testStorage (chars ("Foo bar foo baz FOO"))) (chars ("foo")) (chars ("p")) false
    (chars ("+1p")) (chars ("f.txt")) (chars ("foo"))
    [{ position := 0, context := chars ("Foo bar foo baz FOO") },
     { position := 8, context := chars ("Foo bar foo baz FOO") },
     { position := 16, context := chars ("Foo bar foo baz FOO") }] false (by decide)

/-- A successful upload stores exactly the returned session under the
normalized identifier and leaves every other key of the store unchanged
(Python dict assignment `document_storage[clean_phone] = {...}`). -/
theorem upload_document_success_store
    (ext : ExternalExtractors) (doc_id : List Char) (storage : Storage)
    (file_bytes : List Nat) (filename phone_number : List Char)
    (storage' : Storage) (sess : Session)
    (h : upload_document ext doc_id storage file_bytes filename phone_number =
      (storage', .success sess)) :
    storage' = fun k => if k = uploadCleanPhone phone_number then some sess else storage k := by
  rw [upload_document.eq_def] at h
  dsimp only at h
  split_ifs at h with h1 h2 h3 h4
  · cases hdx : ext.docx file_bytes with
    | ok t =>
      rw [hdx] at h
      dsimp only at h
      injection h with hs hr
      injection hr with hsess
      subst hsess
      exact hs.symm
    | error e =>
      rw [hdx] at h
      dsimp only at h
      injection h with hs hr
      exact absurd hr (by simp)
  · cases hdx : extract_text_from_doc ext.ole file_bytes with
    | ok t =>
      rw [hdx] at h
      dsimp only at h
      injection h with hs hr
      injection hr with hsess
      subst hsess
      exact hs.symm
    | error e =>
      rw [hdx] at h
      dsimp only at h
      injection h with hs hr
      exact absurd hr (by simp)
  · cases hdx : ext.pdf file_bytes with
    | ok t =>
      rw [hdx] at h
      dsimp only at h
      injection h with hs hr
      injection hr with hsess
      subst hsess
      exact hs.symm
    | error e =>
      rw [hdx] at h
      dsimp only at h
      injection h with hs hr
      exact absurd hr (by simp)
  · injection h with hs hr
    injection hr with hsess
    subst hsess
    exact hs.symm
  · injection h with hs hr
    exact absurd hr (by simp)

/-- C5: each normalized identifier maps to at most one stored session
(the store is a key-to-session mapping); a successful upload replaces the
entry for its normalized identifier with exactly the new session,
touching no other key; and a subsequent read through `process_document`
or `search_document` on the same raw identifier behaves exactly as if the
store held only the just-uploaded session, so it can never observe stale
data. -/
theorem claim_C5_upload_replaces_and_reads_observe
    (ext : ExternalExtractors) (doc_id : List Char) (storage : Storage)
    (file_bytes : List Nat) (filename phone_number : List Char)
    (storage' : Storage) (sess : Session)
    (h : upload_document ext doc_id storage file_bytes filename phone_number =
      (storage', .success sess)) :
    storage' (uploadCleanPhone phone_number) = some sess ∧
    (∀ k, k ≠ uploadCleanPhone phone_number → storage' k = storage k) ∧
    (∀ operation instructions,
      process_document storage' phone_number operation instructions =
        process_document
          (fun k => if k = uploadCleanPhone phone_number then some sess else none)
          phone_number operation instructions) ∧
    (∀ search_query case_sensitive,
      search_document storage' search_query phone_number case_sensitive =
        search_document
          (fun k => if k = uploadCleanPhone phone_number then some sess else none)
          search_query phone_number case_sensitive) := by
  have hs := upload_document_success_store ext doc_id storage file_bytes filename
    phone_number storage' sess h
  subst hs
  have hpc : processCleanPhone phone_number = uploadCleanPhone phone_number := rfl
  have hsc : searchCleanPhone phone_number = uploadCleanPhone phone_number := rfl
  refine ⟨by simp, fun k hk => by simp [hk], ?_, ?_⟩
  · intro operation instructions
    rw [process_document.eq_def, process_document.eq_def]
    dsimp only
    rw [hpc, if_pos (rfl : uploadCleanPhone phone_number = uploadCleanPhone phone_number),
      if_pos (rfl : uploadCleanPhone phone_number = uploadCleanPhone phone_number)]
  · intro search_query case_sensitive
    rw [search_document.eq_def, search_document.eq_def]
    dsimp only
    rw [hsc, if_pos (rfl : uploadCleanPhone phone_number = uploadCleanPhone phone_number),
      if_pos (rfl : uploadCleanPhone phone_number = uploadCleanPhone phone_number)]

/-- Session produced by the C5 witness upload: the TXT bytes of "hi"
uploaded as "f.txt" for identifier "p". -/
def c5Sess : Session :=
  { docId := chars ("d")
    filename := chars ("f.txt")
    fileType := chars (".txt")
    extractedText := chars ("hi")
    fileBytes := [0x68, 0x69]
    phoneNumber := chars ("+1p")
    uploadTime := chars ("now") }

/-- Store produced by the C5 witness upload, starting from the empty
store. -/
def c5Stor : Storage :=
  fun k => if k = uploadCleanPhone (chars ("p")) then some c5Sess else (fun _ => none : Storage) k

/-- C5 witness: uploading a concrete TXT document into the empty store. -/
theorem claim_C5_upload_replaces_and_reads_observe_witness :
    c5Stor (uploadCleanPhone (chars ("p"))) = some c5Sess :=
  (claim_C5_upload_replaces_and_reads_observe extFail (chars ("d")) (fun _ => none)
    [0x68, 0x69] (chars ("f.txt")) (chars ("p")) c5Stor c5Sess rfl).1
